import Mathlib

/-!
Shallow embedding of the ray-tracer rendering frontend (src/src/lib.rs).

Floating-point values (`f32`, `f64`) are modelled as rationals (`ℚ`); machine
integers (`u32`) as `ℕ`.  GPU objects with no observable data content
(device, queue, pipeline, shader module, bind-group handles) are elided;
the observable GPU-side actions of an operation (surface reconfiguration,
render-pass recording, draw calls, queue submissions, presentation,
event-loop exit) are modelled as an explicit list of `Effect`s emitted by
the operation, in program order.  Panics (`Option::unwrap` on `None`) are
modelled with `Except String`.
-/

namespace RayTracer

/-- Model of `wgpu::Color`: four floating-point channels. -/
structure Color where
  r : ℚ
  g : ℚ
  b : ℚ
  a : ℚ
deriving DecidableEq, Repr

/-- Model of `[f32; 4]`, indexed 0..3 as in the Rust array. -/
structure Float4 where
  c0 : ℚ
  c1 : ℚ
  c2 : ℚ
  c3 : ℚ
deriving DecidableEq, Repr

/-- Model of `[f32; 3]`, one raw vertex position from the scene file. -/
structure Float3 where
  c0 : ℚ
  c1 : ℚ
  c2 : ℚ
deriving DecidableEq, Repr

/-- Model of `struct Vec3 { x: f32, y: f32, z: f32 }` (src/src/lib.rs:104). -/
structure Vec3 where
  x : ℚ
  y : ℚ
  z : ℚ
deriving DecidableEq, Repr

/-- The `vec3![vertex[0], vertex[1], vertex[2]]` construction at src/src/lib.rs:374. -/
def Vec3.ofPosition (v : Float3) : Vec3 :=
  { x := v.c0, y := v.c1, z := v.c2 }

/-- Model of `struct Material { ambient, diffuse, specular: [f32; 4] }` (src/src/lib.rs:118). -/
structure Material where
  ambient : Float4
  diffuse : Float4
  specular : Float4
deriving DecidableEq, Repr

/-- One scene primitive, exposing its position accessor.  `reader.read_positions()`
returns `None` when the accessor is absent, else the sequence of positions. -/
structure GltfPrimitive where
  positions : Option (List Float3)
deriving DecidableEq, Repr

/-- One scene mesh: an ordered list of primitives. -/
structure GltfMesh where
  primitives : List GltfPrimitive
deriving DecidableEq, Repr

/-- One scene material, exposing `pbr_metallic_roughness().base_color_factor()`. -/
structure GltfMaterial where
  baseColorFactor : Float4
deriving DecidableEq, Repr

/-- A parsed scene document: meshes and materials in document order. -/
structure GltfDocument where
  meshes : List GltfMesh
  materials : List GltfMaterial
deriving DecidableEq, Repr

/-- The vertex-ingestion loop of `RayTracer::resumed` (src/src/lib.rs:366-378):
`for mesh in doc.meshes { for primitive in mesh.primitives { if let Some(positions)
= reader.read_positions() { for vertex in positions { vertices.push(vec3![..]) } } } }`,
modelled with left folds pushing onto the accumulator. -/
def ingestVertices (doc : GltfDocument) : List Vec3 :=
  doc.meshes.foldl (fun acc mesh =>
    mesh.primitives.foldl (fun acc prim =>
      match prim.positions with
      | some positions => positions.foldl (fun acc v => acc ++ [Vec3.ofPosition v]) acc
      | none => acc) acc) []

/-- The material-ingestion loop of `RayTracer::resumed` (src/src/lib.rs:379-387):
for each scene material, push a record whose ambient is the base-color factor
and whose diffuse and specular are zero-filled. -/
def ingestMaterials (doc : GltfDocument) : List Material :=
  doc.materials.foldl (fun acc m =>
    acc ++ [{ ambient := m.baseColorFactor
            , diffuse := ⟨0, 0, 0, 0⟩
            , specular := ⟨0, 0, 0, 0⟩ }]) []

/-- Vertices contributed by one primitive: one record per position, in accessor
order; an absent accessor contributes nothing. -/
def primVertices (p : GltfPrimitive) : List Vec3 :=
  (p.positions.getD []).map Vec3.ofPosition

/-- Vertices contributed by one mesh: its primitives' vertices concatenated in order. -/
def meshVertices (m : GltfMesh) : List Vec3 :=
  (m.primitives.map primVertices).flatten

/-- The document-order vertex concatenation (mesh order outer, primitive order
inner, position order innermost) that the specification describes. -/
def docVertices (doc : GltfDocument) : List Vec3 :=
  (doc.meshes.map meshVertices).flatten

/-- Model of `winit::dpi::PhysicalSize<u32>`. -/
structure PhysicalSize where
  width : ℕ
  height : ℕ
deriving DecidableEq, Repr

/-- Model of `wgpu::SurfaceConfiguration`, restricted to its mutable data
(width, height); format/present/alpha modes are chosen once at construction from
GPU-reported capabilities and never touched by the operations modelled here. -/
structure SurfaceConfiguration where
  width : ℕ
  height : ℕ
deriving DecidableEq, Repr

/-- Model of `struct Settings { bg_color: Color }` (src/src/lib.rs:79). -/
structure Settings where
  bg_color : Color
deriving DecidableEq, Repr

/-- Model of `struct State` (src/src/lib.rs:83): the fields with observable data
content.  GPU handles (surface, device, queue, pipeline, bind group) carry no
data; the buffers keep the ingested lists. -/
structure State where
  config : SurfaceConfiguration
  size : PhysicalSize
  vertex_buffer : List Vec3
  material_buffer : List Material
  num_vertices : ℕ
  settings : Settings
deriving DecidableEq, Repr

/-- Load operation of a color attachment (`wgpu::LoadOp`). -/
inductive LoadOp where
  | clear (c : Color)
  | load
deriving DecidableEq, Repr

/-- Store operation of a color attachment (`wgpu::StoreOp`). -/
inductive StoreOp where
  | store
  | discard
deriving DecidableEq, Repr

/-- One render-pass color attachment: its load and store operations
(src/src/lib.rs:338-345). -/
structure ColorAttachment where
  load : LoadOp
  store : StoreOp
deriving DecidableEq, Repr

/-- Observable GPU / event-loop actions, emitted in program order. -/
inductive Effect where
  | configure (width height : ℕ)
  | requestRedraw
  | beginRenderPass (colorAttachments : List (Option ColorAttachment))
  | setPipeline
  | setBindGroup (index : ℕ)
  | setVertexBuffer (slot : ℕ)
  | draw (firstVertex vertexEnd firstInstance instanceEnd : ℕ)
  | endPass
  | submit
  | present
  | exitLoop
deriving DecidableEq, Repr

/-- Model of `wgpu::SurfaceError`. -/
inductive SurfaceError where
  | timeout
  | outdated
  | lost
  | outOfMemory
  | other
deriving DecidableEq, Repr

/-- Outcome of `surface.get_current_texture()` for one frame, supplied by the
environment (the GPU backend). -/
inductive AcquireResult where
  | ok
  | fail (e : SurfaceError)
deriving DecidableEq, Repr

/-- Model of `winit::event::WindowEvent`, restricted to the variants the
handler inspects; `other` stands for every remaining variant. -/
inductive WindowEvent where
  | cursorMoved (x y : ℚ)
  | closeRequested
  | redrawRequested
  | resized (size : PhysicalSize)
  | other
deriving DecidableEq, Repr

/-- True exactly on the `CursorMoved` variant. -/
def WindowEvent.isCursorMoved : WindowEvent → Bool
  | .cursorMoved _ _ => true
  | _ => false

/-- Model of `State::new` (src/src/lib.rs:142-301), restricted to the data
fields: `size = window.inner_size()`, config width/height taken from `size`,
buffers from the ingested lists, `num_vertices = vertices.len()`, and the
initial clear color `(0.1, 0.2, 0.3, 1.0)`. -/
def State.new (windowSize : PhysicalSize) (vertices : List Vec3)
    (materials : List Material) : State :=
  { config := { width := windowSize.width, height := windowSize.height }
  , size := windowSize
  , vertex_buffer := vertices
  , material_buffer := materials
  , num_vertices := vertices.length
  , settings := { bg_color := { r := 1/10, g := 1/5, b := 3/10, a := 1 } } }

/-- Model of `State::resize` (src/src/lib.rs:303-310): when both dimensions are
positive, store the new size, update the configuration and reconfigure the
surface; otherwise do nothing. -/
def State.resize (s : State) (new_size : PhysicalSize) : State × List Effect :=
  if 0 < new_size.width ∧ 0 < new_size.height then
    ({ s with
        size := new_size
      , config := { s.config with width := new_size.width, height := new_size.height } },
     [.configure new_size.width new_size.height])
  else
    (s, [])

/-- Model of `State::input` (src/src/lib.rs:312-324): on `CursorMoved` set the
clear color's red to `x / width` and green to `y / height` and report the event
consumed; on every other event change nothing and report it not consumed. -/
def State.input (s : State) (event : WindowEvent) : State × Bool :=
  match event with
  | .cursorMoved x y =>
      ({ s with settings := { bg_color :=
          { s.settings.bg_color with
              r := x / (s.size.width : ℚ)
            , g := y / (s.size.height : ℚ) } } }, true)
  | _ => (s, false)

/-- Model of `State::render` (src/src/lib.rs:330-359): acquire the frame (`?`
propagates a surface error); on success record one render pass with one color
attachment (load = clear to the current clear color, store = keep), bind the
pipeline, the material bind group at index 0 and the vertex buffer at slot 0,
draw vertices `0..num_vertices` with instances `0..1`, submit once, present. -/
def State.render (s : State) (acq : AcquireResult) : Except SurfaceError (List Effect) :=
  match acq with
  | .fail e => .error e
  | .ok =>
      .ok [ .beginRenderPass [some { load := .clear s.settings.bg_color, store := .store }]
          , .setPipeline
          , .setBindGroup 0
          , .setVertexBuffer 0
          , .draw 0 s.num_vertices 0 1
          , .endPass
          , .submit
          , .present ]

/-- The panic message of `Option::unwrap` on `None`. -/
def unwrapPanic : String := "called Option unwrap on a None value"

/-- Model of `RayTracer::window_event` (src/src/lib.rs:391-426).  The handler
first calls `self.get_state().input(&event)` — an unwrap that panics when the
state is still absent (modelled as `Except.error`).  A consumed event returns
early; otherwise close requests exit the loop, redraw requests re-request a
redraw and render one frame (resizing at the stored size on lost/outdated,
exiting on out-of-memory/other, doing nothing further on timeout), and resize
events call `State::resize`. -/
def windowEvent (rt : Option State) (event : WindowEvent) (acq : AcquireResult) :
    Except String (Option State × List Effect) :=
  match rt with
  | none => .error unwrapPanic
  | some s =>
      let (s1, consumed) := s.input event
      if consumed then
        .ok (some s1, [])
      else
        match event with
        | .closeRequested => .ok (some s1, [.exitLoop])
        | .redrawRequested =>
            match s1.render acq with
            | .ok commands => .ok (some s1, .requestRedraw :: commands)
            | .error e =>
                match e with
                | .lost | .outdated =>
                    let (s2, tr) := s1.resize s1.size
                    .ok (some s2, .requestRedraw :: tr)
                | .outOfMemory | .other =>
                    .ok (some s1, [.requestRedraw, .exitLoop])
                | .timeout => .ok (some s1, [.requestRedraw])
        | .resized size =>
            let (s2, tr) := s1.resize size
            .ok (some s2, tr)
        | _ => .ok (some s1, [])

/-- True exactly on surface-reconfigure effects. -/
def Effect.isConfigure : Effect → Bool
  | .configure _ _ => true
  | _ => false

/-- True exactly on draw-call effects. -/
def Effect.isDraw : Effect → Bool
  | .draw _ _ _ _ => true
  | _ => false

/-- True exactly on queue-submission effects. -/
def Effect.isSubmit : Effect → Bool
  | .submit => true
  | _ => false

/-- True exactly on render-pass-begin effects. -/
def Effect.isBeginPass : Effect → Bool
  | .beginRenderPass _ => true
  | _ => false

/-- True exactly on frame-presentation effects. -/
def Effect.isPresent : Effect → Bool
  | .present => true
  | _ => false

/-- True exactly on event-loop-exit effects. -/
def Effect.isExit : Effect → Bool
  | .exitLoop => true
  | _ => false

/-- All four clear-color channels lie in the unit interval. -/
def clearColorInRange (c : Color) : Prop :=
  0 ≤ c.r ∧ c.r ≤ 1 ∧ 0 ≤ c.g ∧ c.g ≤ 1 ∧ 0 ≤ c.b ∧ c.b ≤ 1 ∧ 0 ≤ c.a ∧ c.a ≤ 1

/-- The stored window size agrees with the surface configuration's dimensions. -/
def sizeMatchesConfig (s : State) : Prop :=
  s.size.width = s.config.width ∧ s.size.height = s.config.height

/-- A small concrete state used by the witness theorems: a 4×3 window, one
vertex, one material. -/
def sampleState : State :=
  State.new ⟨4, 3⟩ [⟨0, 0, 0⟩] [⟨⟨1, 1, 1, 1⟩, ⟨0, 0, 0, 0⟩, ⟨0, 0, 0, 0⟩⟩]

/-- Folding a push of `f x` over a list appends the mapped list to the accumulator. -/
theorem foldl_push_map {α β : Type} (f : α → β) :
    ∀ (l : List α) (acc : List β),
      l.foldl (fun a x => a ++ [f x]) acc = acc ++ l.map f := by
  intro l
  induction l with
  | nil => simp
  | cons x xs ih => intro acc; simp [ih]

/-- A left fold whose step appends `g x` concatenates the per-element lists in order. -/
theorem foldl_append_of {α β : Type} (f : List β → α → List β) (g : α → List β)
    (hf : ∀ a x, f a x = a ++ g x) :
    ∀ (l : List α) (acc : List β),
      l.foldl f acc = acc ++ (l.map g).flatten := by
  intro l
  induction l with
  | nil => intro acc; simp
  | cons x xs ih => intro acc; simp [hf, ih]

/-- C1: for every parsed scene, the vertex list produced by ingestion is the
document-order concatenation of every primitive's positions (mesh order outer,
primitive order inner, position order innermost), with one record per position
and nothing for a primitive whose position accessor is absent; hence its length
is the sum of the per-primitive position counts. -/
theorem C1_vertex_ingestion (doc : GltfDocument) :
    ingestVertices doc = docVertices doc ∧
    (ingestVertices doc).length =
      (doc.meshes.map (fun m =>
        (m.primitives.map (fun p => (p.positions.getD []).length)).sum)).sum := by
  have hprim : ∀ (acc : List Vec3) (prim : GltfPrimitive),
      (match prim.positions with
       | some positions => positions.foldl (fun acc v => acc ++ [Vec3.ofPosition v]) acc
       | none => acc) = acc ++ primVertices prim := by
    intro acc prim
    cases h : prim.positions with
    | none => simp [primVertices, h]
    | some ps => simp [primVertices, h, foldl_push_map]
  have hmesh : ∀ (acc : List Vec3) (mesh : GltfMesh),
      mesh.primitives.foldl (fun acc prim =>
        (match prim.positions with
         | some positions => positions.foldl (fun acc v => acc ++ [Vec3.ofPosition v]) acc
         | none => acc)) acc = acc ++ meshVertices mesh := by
    intro acc mesh
    exact foldl_append_of _ primVertices hprim mesh.primitives acc
  have heq : ingestVertices doc = docVertices doc := by
    unfold ingestVertices docVertices
    have := foldl_append_of _ meshVertices (fun a m => hmesh a m) doc.meshes []
    simpa using this
  refine ⟨heq, ?_⟩
  rw [heq]
  unfold docVertices meshVertices primVertices
  rw [List.length_flatten, List.map_map]
  congr 1
  refine List.map_congr_left ?_
  intro m _
  simp [Function.comp_def, List.length_flatten, List.map_map]

/-- C2: for every parsed scene, the material list produced by ingestion has one
record per scene material, in enumeration order; the record at every index has
that material's base-color factor as its ambient field and all-zero diffuse and
specular fields. -/
theorem C2_material_ingestion (doc : GltfDocument) :
    ingestMaterials doc = doc.materials.map (fun m =>
      { ambient := m.baseColorFactor
      , diffuse := ⟨0, 0, 0, 0⟩
      , specular := ⟨0, 0, 0, 0⟩ }) ∧
    (ingestMaterials doc).length = doc.materials.length ∧
    ∀ i : ℕ, (ingestMaterials doc)[i]? = doc.materials[i]?.map (fun m =>
      { ambient := m.baseColorFactor
      , diffuse := ⟨0, 0, 0, 0⟩
      , specular := ⟨0, 0, 0, 0⟩ }) := by
  have heq : ingestMaterials doc = doc.materials.map (fun m =>
      { ambient := m.baseColorFactor
      , diffuse := ⟨0, 0, 0, 0⟩
      , specular := ⟨0, 0, 0, 0⟩ }) := by
    unfold ingestMaterials
    have := foldl_push_map (fun m : GltfMaterial =>
      ({ ambient := m.baseColorFactor
       , diffuse := ⟨0, 0, 0, 0⟩
       , specular := ⟨0, 0, 0, 0⟩ } : Material)) doc.materials []
    simpa using this
  refine ⟨heq, ?_, ?_⟩
  · rw [heq]; simp
  · intro i; rw [heq]; simp

/-- C3: whenever a frame render fails with a surface error classified as Lost
or Outdated, the handler performs exactly one surface reconfigure — a resize at
the current stored size — and issues zero draw calls and zero queue submissions
for that iteration.  The positivity hypotheses on the stored size reflect the
specification's invariant that the surface dimensions are positive. -/
theorem C3_lost_outdated_reconfigures (s : State) (e : SurfaceError)
    (he : e = SurfaceError.lost ∨ e = SurfaceError.outdated)
    (hw : 0 < s.size.width) (hh : 0 < s.size.height) :
    ∃ s' tr, windowEvent (some s) .redrawRequested (.fail e) = .ok (some s', tr) ∧
      tr.countP Effect.isConfigure = 1 ∧
      Effect.configure s.size.width s.size.height ∈ tr ∧
      tr.countP Effect.isDraw = 0 ∧
      tr.countP Effect.isSubmit = 0 := by
  have hresize : s.resize s.size =
      ({ s with
          size := s.size
        , config := { s.config with width := s.size.width, height := s.size.height } },
       [.configure s.size.width s.size.height]) := by
    unfold State.resize
    rw [if_pos ⟨hw, hh⟩]
  rcases he with rfl | rfl <;>
    refine ⟨(s.resize s.size).1,
      [.requestRedraw, .configure s.size.width s.size.height], ?_, ?_, ?_, ?_, ?_⟩ <;>
    simp [windowEvent, State.input, State.render, hresize, List.countP_cons,
      Effect.isConfigure, Effect.isDraw, Effect.isSubmit]

/-- C3 witness: at the sample state with a lost surface, the handler emits one
reconfigure at the stored 4×3 size and no draw or submission. -/
theorem C3_witness :
    ∃ s' tr,
      windowEvent (some sampleState) .redrawRequested (.fail .lost) = .ok (some s', tr) ∧
      tr.countP Effect.isConfigure = 1 ∧
      Effect.configure sampleState.size.width sampleState.size.height ∈ tr ∧
      tr.countP Effect.isDraw = 0 ∧
      tr.countP Effect.isSubmit = 0 :=
  C3_lost_outdated_reconfigures sampleState .lost (Or.inl rfl) (by decide) (by decide)

/-- C4: whenever a frame render fails with an out-of-memory surface error, the
handler issues zero draw calls and zero queue submissions, performs no
reconfigure, and signals exactly one exit of the run loop. -/
theorem C4_out_of_memory_exits (s : State) :
    windowEvent (some s) .redrawRequested (.fail .outOfMemory) =
      .ok (some s, [.requestRedraw, .exitLoop]) ∧
    ([Effect.requestRedraw, Effect.exitLoop].countP Effect.isDraw = 0 ∧
     [Effect.requestRedraw, Effect.exitLoop].countP Effect.isSubmit = 0 ∧
     [Effect.requestRedraw, Effect.exitLoop].countP Effect.isConfigure = 0 ∧
     [Effect.requestRedraw, Effect.exitLoop].countP Effect.isExit = 1) := by
  constructor
  · simp [windowEvent, State.input, State.render]
  · decide

/-- C5: a resize with both dimensions positive updates the stored configuration
(and stored size) to the new values and reconfigures the surface exactly once;
a resize with a zero dimension leaves the state completely unchanged and emits
no reconfigure. -/
theorem C5_resize_spec (s : State) (new_size : PhysicalSize) :
    (0 < new_size.width → 0 < new_size.height →
      (s.resize new_size).1.config.width = new_size.width ∧
      (s.resize new_size).1.config.height = new_size.height ∧
      (s.resize new_size).1.size = new_size ∧
      (s.resize new_size).2.countP Effect.isConfigure = 1) ∧
    (new_size.width = 0 ∨ new_size.height = 0 →
      s.resize new_size = (s, [])) := by
  constructor
  · intro hw hh
    unfold State.resize
    rw [if_pos ⟨hw, hh⟩]
    refine ⟨rfl, rfl, rfl, ?_⟩
    simp [List.countP_cons, Effect.isConfigure]
  · intro h
    unfold State.resize
    rw [if_neg]
    rintro ⟨h1, h2⟩
    rcases h with h | h <;> omega

/-- C5 witness: resizing the sample state to 2×5 stores those dimensions and
reconfigures once; resizing it to 0×5 changes nothing. -/
theorem C5_witness :
    ((sampleState.resize ⟨2, 5⟩).1.config.width = 2 ∧
     (sampleState.resize ⟨2, 5⟩).1.config.height = 5 ∧
     (sampleState.resize ⟨2, 5⟩).1.size = ⟨2, 5⟩ ∧
     (sampleState.resize ⟨2, 5⟩).2.countP Effect.isConfigure = 1) ∧
    sampleState.resize ⟨0, 5⟩ = (sampleState, []) :=
  ⟨(C5_resize_spec sampleState ⟨2, 5⟩).1 (by decide) (by decide),
   (C5_resize_spec sampleState ⟨0, 5⟩).2 (Or.inl rfl)⟩

/-- C6: a pointer-move event at (x, y) sets the clear color's red channel to
x divided by the stored width and its green channel to y divided by the stored
height, leaves blue and alpha unchanged, and is reported consumed; every other
event leaves the state unchanged and is reported not consumed. -/
theorem C6_input_spec (s : State) :
    (∀ x y : ℚ,
      (s.input (.cursorMoved x y)).1.settings.bg_color.r = x / (s.size.width : ℚ) ∧
      (s.input (.cursorMoved x y)).1.settings.bg_color.g = y / (s.size.height : ℚ) ∧
      (s.input (.cursorMoved x y)).1.settings.bg_color.b = s.settings.bg_color.b ∧
      (s.input (.cursorMoved x y)).1.settings.bg_color.a = s.settings.bg_color.a ∧
      (s.input (.cursorMoved x y)).2 = true) ∧
    (∀ event : WindowEvent, event.isCursorMoved = false → s.input event = (s, false)) := by
  constructor
  · intro x y
    simp [State.input]
  · intro event h
    cases event <;> simp_all [State.input, WindowEvent.isCursorMoved]

/-- C6 witness: at the sample state a pointer move to (1, 2) sets red to 1/4
and is consumed; a close request changes nothing and is not consumed. -/
theorem C6_witness :
    (sampleState.input (.cursorMoved 1 2)).1.settings.bg_color.r =
      1 / (sampleState.size.width : ℚ) ∧
    sampleState.input .closeRequested = (sampleState, false) :=
  ⟨((C6_input_spec sampleState).1 1 2).1,
   (C6_input_spec sampleState).2 .closeRequested rfl⟩

/-- C7: a successful render of one frame records exactly one render pass, whose
single color attachment loads by clearing to the current clear color and stores
(keeps) the result, issues exactly one draw call covering vertices
0..num_vertices with instances 0..1, makes exactly one queue submission, and
ends by presenting the acquired frame (which is not retained: the emitted
command list is the only trace of it, and it closes with the presentation). -/
theorem C7_render_frame (s : State) :
    ∃ tr, s.render .ok = .ok tr ∧
      tr.countP Effect.isBeginPass = 1 ∧
      Effect.beginRenderPass
        [some { load := .clear s.settings.bg_color, store := .store }] ∈ tr ∧
      tr.countP Effect.isDraw = 1 ∧
      Effect.draw 0 s.num_vertices 0 1 ∈ tr ∧
      tr.countP Effect.isSubmit = 1 ∧
      tr.countP Effect.isPresent = 1 ∧
      tr.getLast? = some Effect.present := by
  refine ⟨_, rfl, ?_, ?_, ?_, ?_, ?_, ?_, ?_⟩ <;>
    simp [List.countP_cons, Effect.isBeginPass, Effect.isDraw, Effect.isSubmit,
      Effect.isPresent]

/-- C9: any window event dispatched while the application state is still absent
panics on the unwrap inside get_state — for every event kind, including redraw
requests, despite the is-none guard inside the redraw branch (the unwrap runs
before that guard). -/
theorem C9_uninitialized_panics (event : WindowEvent) (acq : AcquireResult) :
    windowEvent none event acq = .error unwrapPanic := rfl

/-- C8 counterexample: the pointer-move handler does not keep the clear color
in the unit interval for every pointer position — at the concrete sample state
(stored size 4×3, in-range clear color) a pointer move to (8, 0) sets the red
channel to 8/4 = 2 > 1, because the handler divides without clamping. -/
theorem C8_counterexample :
    ¬ (∀ (s : State) (x y : ℚ),
        clearColorInRange s.settings.bg_color →
        clearColorInRange ((s.input (.cursorMoved x y)).1.settings.bg_color)) := by
  intro h
  have hinit : clearColorInRange sampleState.settings.bg_color := by
    norm_num [sampleState, State.new, clearColorInRange]
  have h2 := h sampleState 8 0 hinit
  rw [clearColorInRange] at h2
  have hr : ((sampleState.input (.cursorMoved 8 0)).1.settings.bg_color.r) = 2 := by
    norm_num [sampleState, State.new, State.input]
  rw [hr] at h2
  norm_num at h2

/-- C8 (amended): the clear color's four channels lie in [0, 1] initially, and
every operation that touches the state preserves this provided pointer-move
coordinates lie inside the window's client area (0 ≤ x ≤ width, 0 ≤ y ≤ height,
with positive stored dimensions) — the clamping the specification attributes to
the event source; resize and non-pointer events never touch the clear color. -/
theorem C8_clear_color_in_range :
    (∀ (ws : PhysicalSize) (vertices : List Vec3) (materials : List Material),
      clearColorInRange (State.new ws vertices materials).settings.bg_color) ∧
    (∀ (s : State) (x y : ℚ),
      0 < s.size.width → 0 < s.size.height →
      0 ≤ x → x ≤ (s.size.width : ℚ) →
      0 ≤ y → y ≤ (s.size.height : ℚ) →
      clearColorInRange s.settings.bg_color →
      clearColorInRange ((s.input (.cursorMoved x y)).1.settings.bg_color)) ∧
    (∀ (s : State) (new_size : PhysicalSize),
      clearColorInRange s.settings.bg_color →
      clearColorInRange ((s.resize new_size).1.settings.bg_color)) ∧
    (∀ (s : State) (event : WindowEvent),
      event.isCursorMoved = false →
      clearColorInRange s.settings.bg_color →
      clearColorInRange ((s.input event).1.settings.bg_color)) := by
  refine ⟨?_, ?_, ?_, ?_⟩
  · intro ws vertices materials
    norm_num [State.new, clearColorInRange]
  · intro s x y hw hh hx0 hx1 hy0 hy1 hc
    obtain ⟨_, _, _, _, hb0, hb1, ha0, ha1⟩ := hc
    have hwq : (0 : ℚ) < (s.size.width : ℚ) := by exact_mod_cast hw
    have hhq : (0 : ℚ) < (s.size.height : ℚ) := by exact_mod_cast hh
    refine ⟨div_nonneg hx0 hwq.le, ?_, div_nonneg hy0 hhq.le, ?_, ?_⟩
    · rw [State.input]
      exact (div_le_one hwq).mpr hx1
    · rw [State.input]
      exact (div_le_one hhq).mpr hy1
    · simpa [State.input] using ⟨hb0, hb1, ha0, ha1⟩
  · intro s new_size hc
    have hs : (s.resize new_size).1.settings = s.settings := by
      unfold State.resize
      split <;> rfl
    rwa [hs]
  · intro s event h hc
    cases event <;> simp_all [State.input, WindowEvent.isCursorMoved]

/-- C8 witness: at the sample state (size 4×3) a pointer move to (1, 2) — inside
the client area — keeps all clear-color channels in [0, 1]. -/
theorem C8_witness :
    clearColorInRange ((sampleState.input (.cursorMoved 1 2)).1.settings.bg_color) :=
  C8_clear_color_in_range.2.1 sampleState 1 2 (by decide) (by decide)
    (by norm_num) (by norm_num [sampleState, State.new])
    (by norm_num) (by norm_num [sampleState, State.new])
    (by norm_num [sampleState, State.new, clearColorInRange])

/-- C10: the stored window size agrees with the surface configuration's width
and height after construction, and this agreement is preserved by every window
event the handler processes on an initialized state (pointer moves touch only
the clear color, resizes update size and configuration together, renders touch
neither). -/
theorem C10_size_config_agree :
    (∀ (ws : PhysicalSize) (vertices : List Vec3) (materials : List Material),
      sizeMatchesConfig (State.new ws vertices materials)) ∧
    (∀ (s s' : State) (event : WindowEvent) (acq : AcquireResult) (tr : List Effect),
      sizeMatchesConfig s →
      windowEvent (some s) event acq = .ok (some s', tr) →
      sizeMatchesConfig s') := by
  constructor
  · intro ws vertices materials
    exact ⟨rfl, rfl⟩
  · intro s s' event acq tr hs heq
    have hresize : ∀ ns : PhysicalSize, sizeMatchesConfig (s.resize ns).1 := by
      intro ns
      unfold State.resize
      split
      · exact ⟨rfl, rfl⟩
      · exact hs
    cases event with
    | cursorMoved x y =>
        simp [windowEvent, State.input] at heq
        obtain ⟨rfl, -⟩ := heq
        exact hs
    | closeRequested =>
        simp [windowEvent, State.input] at heq
        obtain ⟨rfl, -⟩ := heq
        exact hs
    | redrawRequested =>
        cases acq with
        | ok =>
            simp [windowEvent, State.input, State.render] at heq
            obtain ⟨rfl, -⟩ := heq
            exact hs
        | fail e =>
            cases e with
            | lost =>
                simp [windowEvent, State.input, State.render] at heq
                obtain ⟨rfl, -⟩ := heq
                exact hresize s.size
            | outdated =>
                simp [windowEvent, State.input, State.render] at heq
                obtain ⟨rfl, -⟩ := heq
                exact hresize s.size
            | outOfMemory =>
                simp [windowEvent, State.input, State.render] at heq
                obtain ⟨rfl, -⟩ := heq
                exact hs
            | other =>
                simp [windowEvent, State.input, State.render] at heq
                obtain ⟨rfl, -⟩ := heq
                exact hs
            | timeout =>
                simp [windowEvent, State.input, State.render] at heq
                obtain ⟨rfl, -⟩ := heq
                exact hs
    | resized size =>
        simp [windowEvent, State.input] at heq
        obtain ⟨rfl, -⟩ := heq
        exact hresize size
    | other =>
        simp [windowEvent, State.input] at heq
        obtain ⟨rfl, -⟩ := heq
        exact hs

/-- C10 witness: the invariant holds of a freshly constructed 4×3 state, and
is preserved by a close-request event on the sample state. -/
theorem C10_witness :
    sizeMatchesConfig (State.new ⟨4, 3⟩ [] []) ∧ sizeMatchesConfig sampleState :=
  ⟨C10_size_config_agree.1 ⟨4, 3⟩ [] [],
   C10_size_config_agree.2 sampleState sampleState .closeRequested .ok [.exitLoop]
     ⟨rfl, rfl⟩ rfl⟩

end RayTracer
